import Mathlib

/-
Shallow embedding of the python-mock-api server core: the loose filter engine
(collection_utils.filter_dict), the route failure flags, the middleware chain,
the GET/POST/PUT/DELETE request handlers, middleware-config loading and seed
dataset loading (server.py), together with theorems settling the claims.

Modelling conventions:
* JSON scalar values are modelled by `Value`; Python floats are not modelled
  (no claim depends on float formatting), JSON numbers appear as integers, and
  nested arrays/objects as record field values do not occur in any claim (the
  handlers treat field values opaquely, via equality and string conversion
  only).
* Python dicts are association lists in insertion order (`alGet`/`alSet`
  mirror `d[k]` reads and writes, `dictMerge` mirrors `{**a, **b}`).
* External effects are oracle inputs: the parsed JSON request body is an
  `Option Record` (`none` = unparseable), `uuid.uuid4()` and
  `datetime.now(...).isoformat()` are string parameters, a middleware unit's
  `run` result is a `MwStep`, a seed file's read/parse outcome is a
  `SeedFile`, and a `validate_config` call's outcome is a `MwLoadOutcome`.
* Python exceptions that escape a handler are `Except.error`.
-/

set_option maxRecDepth 4000

namespace MockApi

/-- Scalar JSON values handled by the mock server. -/
inductive Value where
  | null : Value
  | bool : Bool → Value
  | int : Int → Value
  | str : String → Value
  deriving DecidableEq, Repr

/-- Python str() of a value (str(None) = "None", str(True) = "True", ...). -/
def pyStr : Value → String
  | .null => "None"
  | .bool b => if b then "True" else "False"
  | .int n => toString n
  | .str s => s

/-- Python truthiness of a value (`if not x`). -/
def Value.truthy : Value → Bool
  | .null => false
  | .bool b => b
  | .int n => n != 0
  | .str s => s != ""

/-- Python repr() of a list of strings, as interpolated by f"{missing_fields}".
Quote-escaping inside the strings is not modelled (no claim involves field
names containing quotes). -/
def pyStrList (xs : List String) : String :=
  "[" ++ ", ".intercalate (xs.map (fun s => "'" ++ s ++ "'")) ++ "]"

/-- Association-list read, mirroring Python `d.get(k)` / `d[k]`. -/
def alGet {β : Type} : List (String × β) → String → Option β
  | [], _ => none
  | kv :: rest, k => if kv.1 == k then some kv.2 else alGet rest k

/-- Key-membership test, mirroring Python `k in d`. -/
def alHas {β : Type} : List (String × β) → String → Bool
  | [], _ => false
  | kv :: rest, k => kv.1 == k || alHas rest k

/-- Association-list write, mirroring Python `d[k] = v`: an existing key keeps
its position, a new key is appended. -/
def alSet {β : Type} : List (String × β) → String → β → List (String × β)
  | [], k, v => [(k, v)]
  | kv :: rest, k, v => if kv.1 == k then (k, v) :: rest else kv :: alSet rest k v

/-- A record (one entry of a dataset), a request body, a criteria mapping or a
metadata mapping: a Python dict with string keys. -/
abbrev Record := List (String × Value)

/-- Keys of a record, in insertion order. -/
def recordKeys (r : Record) : List String := r.map (·.1)

/-- Python `{**a, **b}`: insert a's items, then b's items (b wins on shared
keys). -/
def dictMerge (a b : Record) : Record :=
  b.foldl (fun acc kv => alSet acc kv.1 kv.2) a

/-- Truthiness of `metadata.get(k)`, as used for boolean metadata flags such as
`singular_response` and `creates_entry`. -/
def truthyGet (meta : Record) (k : String) : Bool :=
  ((alGet meta k).getD Value.null).truthy

/-- collection_utils.py line 32: the per-record condition of loose filtering,
`all(str(item.get(k)) == str(v) for k, v in filters.items())`. An absent key
reads as Python None. -/
def looseMatch (item : Record) (filters : Record) : Bool :=
  filters.all (fun kv => pyStr ((alGet item kv.1).getD Value.null) == pyStr kv.2)

/-- collection_utils.filter_dict (lines 18-33): loose filtering. -/
def filter_dict (data : List Record) (filters : Record) : List Record :=
  data.filter (fun item => looseMatch item filters)

/-- collection_utils.strict_filter_dict (lines 1-16): exact value matching
(`item.get(k) == v`; an absent key reads as None). -/
def strict_filter_dict (data : List Record) (filters : Record) : List Record :=
  data.filter (fun item =>
    filters.all (fun kv => ((alGet item kv.1).getD Value.null) == kv.2))

/-- HTTP response bodies produced by the handlers: a JSON object, a bare JSON
array of records (DELETE without singular_response), or the GET list shape
`{"data": [...]}`. -/
inductive Content where
  | obj : Record → Content
  | arr : List Record → Content
  | dataList : List Record → Content
  deriving DecidableEq, Repr

/-- A JSONResponse: status code and content. -/
structure Response where
  status : Nat
  content : Content
  deriving DecidableEq, Repr

/-- JSONResponse(status_code=..., content={"error": msg}). -/
def errorResponse (status : Nat) (msg : String) : Response :=
  ⟨status, .obj [("error", .str msg)]⟩

/-- The repeated f"{n} entries found, this endpoint expects a single entry to
be found." message. -/
def countMessage (n : Nat) : String :=
  toString n ++ " entries found, this endpoint expects a single entry to be found."

/-- The server's self.fail_next dict: string keys to booleans. -/
abbrev FlagMap := List (String × Bool)

/-- self.fail_next.get(key, False). -/
def flagGet (st : FlagMap) (k : String) : Bool :=
  (alGet st k).getD false

/-- f"{method}:{endpoint}", the key of a route failure flag. -/
def routeKey (method endpoint : String) : String := method ++ ":" ++ endpoint

/-- f"middleware:{name}", the key of a middleware failure flag. -/
def middlewareKey (name : String) : String := "middleware:" ++ name

/-- gui.py line 53: server.fail_next[selected] = True for a selected route. -/
def set_route_failure (st : FlagMap) (method endpoint : String) : FlagMap :=
  alSet st (routeKey method endpoint) true

/-- server.py lines 358-363: check_route_failure_flag. A set flag produces the
simulated 500 and is reset; otherwise nothing happens. -/
def check_route_failure_flag (st : FlagMap) (method endpoint : String) :
    Option Response × FlagMap :=
  let route_key := routeKey method endpoint
  if flagGet st route_key then
    (some (errorResponse 500 "Simulated failure"), alSet st route_key false)
  else
    (none, st)

/-- One middleware invocation, as seen by run_middleware: the unit's name, the
response its run() returned (none = continue), and the should_clear_flag
component of its return value. -/
structure MwStep where
  name : String
  response : Option Response
  shouldClear : Bool
  deriving DecidableEq, Repr

/-- server.py lines 365-387: run_middleware's effect on fail_next — the
middleware flag of the unit is cleared exactly when the unit reports that it
consumed it. -/
def run_middleware (st : FlagMap) (mw : MwStep) : Option Response × FlagMap :=
  let st' := if mw.shouldClear then alSet st (middlewareKey mw.name) false else st
  (mw.response, st')

/-- The middleware loop shared by all handlers: run each unit in order, the
first non-empty response short-circuits. -/
def runMiddlewareChain (st : FlagMap) : List MwStep → Option Response × FlagMap
  | [] => (none, st)
  | mw :: rest =>
    let step := run_middleware st mw
    match step.1 with
    | some r => (some r, step.2)
    | none => runMiddlewareChain step.2 rest

/-- self.data: dataset name to list of records. -/
abbrev DataMap := List (String × List Record)

/-- The preamble shared by every handler (e.g. lines 84-95): dataset existence
check, then the route failure flag, then the middleware chain. -/
def route_preamble (st : FlagMap) (dataMap : DataMap) (method data_set endpoint : String)
    (chain : List MwStep) : Option Response × FlagMap :=
  if !alHas dataMap data_set then
    (some (errorResponse 500 ("dataset " ++ data_set ++ " not found")), st)
  else
    let flagStep := check_route_failure_flag st method endpoint
    match flagStep.1 with
    | some r => (some r, flagStep.2)
    | none => runMiddlewareChain flagStep.2 chain

/-- server.py lines 96-120: the core of the GET handler, applied to the
dataset's records after the preamble passed. -/
def get_handler (data : List Record) (path_params query_params metadata : Record) :
    Response :=
  let filtered := filter_dict data (dictMerge path_params query_params)
  if filtered.isEmpty then
    errorResponse 404 "Item not found"
  else if truthyGet metadata "singular_response" then
    if filtered.length == 1 then
      ⟨200, .obj (filtered.headD [])⟩
    else
      errorResponse 400 (countMessage filtered.length)
  else
    ⟨200, .dataList filtered⟩

/-- server.py lines 83-121: the full GET request pipeline (add_get_route's
handler). GET does not mutate the dataset. -/
def get_request (st : FlagMap) (dataMap : DataMap) (data_set endpoint : String)
    (chain : List MwStep) (path_params query_params metadata : Record) :
    Response × FlagMap :=
  let pre := route_preamble st dataMap "GET" data_set endpoint chain
  match pre.1 with
  | some r => (r, pre.2)
  | none =>
    (get_handler ((alGet dataMap data_set).getD []) path_params query_params metadata,
     pre.2)

/-- server.py lines 179-183: the body after the POST handler's stamping —
body["id"] = str(uuid.uuid4()) overwriting any client value, then the
optional created_at (UTC ISO timestamp) and updated_at (null) stamps. -/
def postStamped (body metadata : Record) (new_id now : String) : Record :=
  let body1 := alSet body "id" (.str new_id)
  let body2 :=
    if truthyGet metadata "creates_created_at" then
      alSet body1 "created_at" (.str now)
    else body1
  if truthyGet metadata "creates_updated_at" then
    alSet body2 "updated_at" .null
  else body2

/-- server.py lines 156-194: the core of the POST handler. body? is the parsed
JSON body (none = request.json() raised); new_id is str(uuid.uuid4()); now is
datetime.now(timezone.utc).isoformat(). Returns the response and the new
dataset contents. -/
def post_handler (data : List Record) (body? : Option Record) (metadata : Record)
    (new_id now : String) : Response × List Record :=
  match body? with
  | none => (errorResponse 400 "Invalid JSON body", data)
  | some body =>
    if body.isEmpty then
      (errorResponse 400 "Request body is required", data)
    else
      let template := data.headD []
      let missing_fields :=
        (recordKeys template).filter (fun k => k != "id" && !alHas body k)
      if !missing_fields.isEmpty then
        (errorResponse 400 ("Missing required fields: " ++ pyStrList missing_fields),
         data)
      else
        let body3 := postStamped body metadata new_id now
        if truthyGet metadata "creates_entry" then
          (⟨200, .obj body3⟩, data ++ [body3])
        else
          (⟨200, .obj [("message", .str "Successful post, no entries created")]⟩, data)

/-- First ids of a list of matched records, mirroring the set comprehension
`{item['id'] for item in to_delete}`; none signals the KeyError raised when a
matched record lacks the key. -/
def idsOf : List Record → Option (List Value)
  | [] => some []
  | r :: rest =>
    match alGet r "id" with
    | none => none
    | some v => (idsOf rest).map (fun vs => v :: vs)

/-- server.py lines 231-263: the core of the DELETE handler. An uncaught
KeyError (a matched record without 'id') is Except.error. Multiset semantics
of the Python id set are preserved by list membership, and `item.get('id')`
reads absent keys as None. -/
def delete_handler (data : List Record) (path_params query_params metadata : Record) :
    Except String (Response × List Record) :=
  if path_params.isEmpty && query_params.isEmpty then
    .ok (errorResponse 500 "DELETE route requires path or query parameters to locate entry",
         data)
  else
    let to_delete := filter_dict data (dictMerge path_params query_params)
    if to_delete.isEmpty then
      .ok (errorResponse 404 "No matching entries found to delete", data)
    else if truthyGet metadata "singular_response" && to_delete.length != 1 then
      .ok (errorResponse 400 (countMessage to_delete.length), data)
    else
      match idsOf to_delete with
      | none => .error "KeyError: 'id'"
      | some to_delete_ids =>
        let remaining :=
          data.filter (fun item => !to_delete_ids.contains ((alGet item "id").getD .null))
        .ok (⟨200,
              if truthyGet metadata "singular_response" then .obj (to_delete.headD [])
              else .arr to_delete⟩,
             remaining)

/-- server.py lines 300-354: the core of the PUT handler. The in-place
mutation of to_update[0] (clear, update with the body, restore the id) is
modelled by replacing the records matching the criteria — in the mutating
branch exactly one record matches. Python iterates the missing-fields SET in
unspecified order when joining the error message; here template-key order is
used (no claim depends on that message). -/
def put_handler (data : List Record) (path_params query_params : Record)
    (body? : Option Record) : Response × List Record :=
  match body? with
  | none => (errorResponse 400 "Invalid JSON body", data)
  | some body =>
    if body.isEmpty then
      (errorResponse 400 "Request body is required", data)
    else if path_params.isEmpty && query_params.isEmpty then
      (errorResponse 400 "PUT route requires path or query parameters to locate entry",
       data)
    else
      let criteria := dictMerge path_params query_params
      let to_update := filter_dict data criteria
      if to_update.isEmpty then
        (errorResponse 404 "No matching entry found to update", data)
      else if to_update.length != 1 then
        (errorResponse 400 (countMessage to_update.length), data)
      else
        let item := to_update.headD []
        let missing_fields :=
          (recordKeys item).filter (fun k => k != "id" && !alHas body k)
        if !missing_fields.isEmpty then
          (errorResponse 400 ("Missing fields in request body: " ++
            ", ".intercalate missing_fields), data)
        else
          let existing_id := (alGet item "id").getD .null
          let updated := alSet body "id" existing_id
          (⟨200, .obj updated⟩,
           data.map (fun r => if looseMatch r criteria then updated else r))

/-- server.py lines 143-195: the full POST request pipeline. -/
def post_request (st : FlagMap) (dataMap : DataMap) (data_set endpoint : String)
    (chain : List MwStep) (body? : Option Record) (metadata : Record)
    (new_id now : String) : Response × FlagMap × DataMap :=
  let pre := route_preamble st dataMap "POST" data_set endpoint chain
  match pre.1 with
  | some r => (r, pre.2, dataMap)
  | none =>
    let step := post_handler ((alGet dataMap data_set).getD []) body? metadata new_id now
    (step.1, pre.2, alSet dataMap data_set step.2)

/-- server.py lines 287-355: the full PUT request pipeline. -/
def put_request (st : FlagMap) (dataMap : DataMap) (data_set endpoint : String)
    (chain : List MwStep) (path_params query_params : Record) (body? : Option Record) :
    Response × FlagMap × DataMap :=
  let pre := route_preamble st dataMap "PUT" data_set endpoint chain
  match pre.1 with
  | some r => (r, pre.2, dataMap)
  | none =>
    let step := put_handler ((alGet dataMap data_set).getD []) path_params query_params body?
    (step.1, pre.2, alSet dataMap data_set step.2)

/-- server.py lines 218-264: the full DELETE request pipeline. -/
def delete_request (st : FlagMap) (dataMap : DataMap) (data_set endpoint : String)
    (chain : List MwStep) (path_params query_params metadata : Record) :
    Except String (Response × FlagMap × DataMap) :=
  let pre := route_preamble st dataMap "DELETE" data_set endpoint chain
  match pre.1 with
  | some r => .ok (r, pre.2, dataMap)
  | none =>
    match delete_handler ((alGet dataMap data_set).getD []) path_params query_params metadata with
    | .error e => .error e
    | .ok step => .ok (step.1, pre.2, alSet dataMap data_set step.2)

/-- Outcome of importing and config-validating one middleware unit, as seen by
load_middleware: module missing, no validate_config attribute, a returned
error list (a None return behaves as []), or an exception. -/
inductive MwLoadOutcome where
  | notFound : MwLoadOutcome
  | noValidateFn : MwLoadOutcome
  | validated : List String → MwLoadOutcome
  | raised : String → MwLoadOutcome
  deriving DecidableEq, Repr

/-- The local `errors` dict accumulated by load_middleware (server.py lines
448-466). -/
def load_middleware_errors (cfg : List (String × MwLoadOutcome)) :
    List (String × List String) :=
  cfg.foldl (fun errors kv =>
    match kv.2 with
    | .notFound => errors ++ [(kv.1, ["Module '" ++ kv.1 ++ ".py' not found."])]
    | .noValidateFn =>
        errors ++ [(kv.1, ["'validate_config' function not found in '" ++ kv.1 ++ ".py'."])]
    | .validated es => if es.isEmpty then errors else errors ++ [(kv.1, es)]
    | .raised msg =>
        errors ++ [(kv.1, ["Error validating " ++ kv.1 ++ ": " ++ msg])]) []

/-- server.py lines 448-466: load_middleware accumulates the errors dict above
but ends without a return statement, so Python returns None. -/
def load_middleware (cfg : List (String × MwLoadOutcome)) :
    Option (List (String × List String)) :=
  let _errors := load_middleware_errors cfg
  none

/-- Whether parse_config aborts (sys.exit(1)) at its middleware-validation
gate or goes on to register routes. -/
inductive StartupOutcome where
  | exited : StartupOutcome
  | proceeded : StartupOutcome
  deriving DecidableEq, Repr

/-- server.py lines 414-419: `errors = self.load_middleware()` followed by
`if errors: ... sys.exit(1)` (None and an empty dict are both falsy). -/
def parse_config_middleware_gate (cfg : List (String × MwLoadOutcome)) :
    StartupOutcome :=
  match load_middleware cfg with
  | some errs => if errs.isEmpty then .proceeded else .exited
  | none => .proceeded

/-- One element of a parsed seed-file array: a JSON object, or any non-object
JSON value (whose payload the validation loop never inspects). -/
inductive SeedItem where
  | obj : Record → SeedItem
  | nonObject : SeedItem
  deriving DecidableEq, Repr

/-- The read/parse outcome of a seed file: unreadable or unparseable, parsed
JSON that is not a list, or a parsed JSON array. -/
inductive SeedFile where
  | unreadable : SeedFile
  | notAList : SeedFile
  | items : List SeedItem → SeedFile
  deriving DecidableEq, Repr

/-- server.py lines 435-446: load_seed_data. Every failure — IO error, JSON
error, and the not-a-list ValueError raised inside the same try block — is
caught, logged and turned into an empty list. -/
def load_seed_data : SeedFile → List SeedItem
  | .items l => l
  | _ => []

/-- Id of a seed item as the validation loop reads it: `item.get("id")`, with
an absent key as None. -/
def seedIdOf : SeedItem → Value
  | .obj r => (alGet r "id").getD .null
  | .nonObject => .null

/-- server.py lines 475-487: the validation loop of ensure_dataset_loaded.
idx is the running enumerate index, ids the set of ids seen so far. A
violation raises ValueError (Except.error); success returns the records. -/
def validateSeedItems (data_set : String) (idx : Nat) (ids : List Value) :
    List SeedItem → Except String (List Record)
  | [] => .ok []
  | .nonObject :: _ =>
    .error ("Item at index " ++ toString idx ++ " in dataset " ++ data_set ++
            " is not an object")
  | .obj r :: rest =>
    let unique_id := (alGet r "id").getD Value.null
    if !unique_id.truthy then
      .error ("Item at index " ++ toString idx ++ " in dataset " ++ data_set ++
              " lacks 'id'")
    else if ids.contains unique_id then
      .error ("Duplicate id '" ++ pyStr unique_id ++ "' found in dataset " ++ data_set)
    else
      (validateSeedItems data_set (idx + 1) (ids ++ [unique_id]) rest).map
        (fun recs => r :: recs)

/-- server.py lines 468-489: ensure_dataset_loaded for dataset data_set whose
seed file read gave seed. The `if not isinstance(data, list)` check can never
fire because load_seed_data always returns a list. -/
def ensure_dataset_loaded (dataMap : DataMap) (data_set : String) (seed : SeedFile) :
    Except String DataMap :=
  if alHas dataMap data_set then .ok dataMap
  else
    let data := load_seed_data seed
    match validateSeedItems data_set 0 [] data with
    | .error e => .error e
    | .ok recs => .ok (alSet dataMap data_set recs)

/-- Ids of a dataset's records as Python compares them (absent key = None). -/
def dsIds (data : List Record) : List Value :=
  data.map (fun r => (alGet r "id").getD .null)

/-- Reachable contents of one dataset: loaded (or reset) from a validated
seed, then mutated by any sequence of POST, PUT and DELETE handler runs. The
POST step carries the assumption that str(uuid.uuid4()) is fresh for the
dataset, which is the meaning of a freshly generated unique identifier. -/
inductive ReachableData : List Record → Prop where
  | loaded (ds : String) (seed : SeedFile) (recs : List Record) :
      validateSeedItems ds 0 [] (load_seed_data seed) = .ok recs →
      ReachableData recs
  | postStep (d : List Record) (body? : Option Record) (meta : Record)
      (new_id now : String) : ReachableData d →
      Value.str new_id ∉ dsIds d →
      ReachableData (post_handler d body? meta new_id now).2
  | putStep (d : List Record) (pp qp : Record) (body? : Option Record) :
      ReachableData d →
      ReachableData (put_handler d pp qp body?).2
  | deleteStep (d : List Record) (pp qp meta : Record) (resp : Response)
      (d' : List Record) : ReachableData d →
      delete_handler d pp qp meta = .ok (resp, d') →
      ReachableData d'

/-! Helper lemmas about association lists. -/

theorem alGet_alSet_self {β : Type} (l : List (String × β)) (k : String) (v : β) :
    alGet (alSet l k v) k = some v := by
  induction l with
  | nil => simp [alSet, alGet]
  | cons kv rest ih =>
    by_cases h : kv.1 = k
    · simp [alSet, alGet, h]
    · simp [alSet, alGet, h, ih]

theorem alGet_alSet_ne {β : Type} (l : List (String × β)) (k k' : String) (v : β)
    (h : k' ≠ k) : alGet (alSet l k v) k' = alGet l k' := by
  induction l with
  | nil => simp [alSet, alGet, h, Ne.symm h]
  | cons kv rest ih =>
    by_cases hk : kv.1 = k
    · simp [alSet, alGet, hk, h, Ne.symm h]
    · simp [alSet, alGet, hk, ih]

theorem dictMerge_cons (a : Record) (kv : String × Value) (b : Record) :
    dictMerge a (kv :: b) = dictMerge (alSet a kv.1 kv.2) b := rfl

theorem alGet_dictMerge_not_mem (a b : Record) (k : String)
    (h : ∀ kv ∈ b, kv.1 ≠ k) : alGet (dictMerge a b) k = alGet a k := by
  induction b generalizing a with
  | nil => rfl
  | cons kv rest ih =>
    rw [dictMerge_cons, ih _ (fun kv' hm => h kv' (List.mem_cons_of_mem _ hm)),
        alGet_alSet_ne _ _ _ _ (Ne.symm (h kv (List.mem_cons_self _ _)))]

theorem alGet_dictMerge_right (a b : Record) (k : String) (v : Value)
    (hwf : (b.map Prod.fst).Nodup) (h : alGet b k = some v) :
    alGet (dictMerge a b) k = some v := by
  induction b generalizing a with
  | nil => simp [alGet] at h
  | cons kv rest ih =>
    rw [dictMerge_cons]
    by_cases hk : kv.1 = k
    · subst hk
      have hids : kv.1 ∉ rest.map Prod.fst := (List.nodup_cons.mp hwf).1
      have hrest : ∀ kv' ∈ rest, kv'.1 ≠ kv.1 := by
        intro kv' hm he
        exact hids (he ▸ List.mem_map_of_mem Prod.fst hm)
      have hv : v = kv.2 := by simpa [alGet] using h.symm
      rw [alGet_dictMerge_not_mem _ _ _ hrest, alGet_alSet_self, hv]
    · have h' : alGet rest k = some v := by simpa [alGet, hk] using h
      exact ih _ (List.nodup_cons.mp hwf).2 h'

/-- The specification's own wording of loose matching: every key of the
criteria C satisfies string(R[key]) == string(C[key]), an absent key reading
as None. -/
def LooseMatchSpec (r C : Record) : Prop :=
  ∀ kv ∈ C, pyStr ((alGet r kv.1).getD Value.null) = pyStr kv.2

instance (r C : Record) : Decidable (LooseMatchSpec r C) := by
  unfold LooseMatchSpec
  infer_instance

theorem looseMatch_iff (r C : Record) : looseMatch r C = true ↔ LooseMatchSpec r C := by
  simp [looseMatch, LooseMatchSpec, List.all_eq_true]

/-- C1: for every list of records and every criteria mapping, loose filtering
(filter_dict) returns exactly the records R such that every key k of the
criteria C satisfies string(R[k]) == string(C[k]) (an absent key reading as
the string of None), in their original relative order. -/
theorem filter_dict_loose_spec (data : List Record) (C : Record) :
    filter_dict data C = data.filter (fun r => decide (LooseMatchSpec r C)) ∧
    (∀ r, r ∈ filter_dict data C ↔ r ∈ data ∧ LooseMatchSpec r C) ∧
    (filter_dict data C).Sublist data := by
  refine ⟨List.filter_congr (fun r _ => ?_), fun r => ?_, List.filter_sublist _⟩
  · by_cases h : LooseMatchSpec r C
    · rw [(looseMatch_iff r C).mpr h, decide_eq_true h]
    · have h1 : looseMatch r C = false := by
        cases hb : looseMatch r C
        · rfl
        · exact absurd ((looseMatch_iff r C).mp hb) h
      rw [h1, decide_eq_false h]
  · rw [filter_dict, List.mem_filter, looseMatch_iff]

/-- C3 (code bug witness): load_middleware accumulates the validation errors
reported by validate_config into a local dict but ends without a return
statement, so the `errors = self.load_middleware(); if errors: sys.exit(1)`
gate in parse_config never fires — startup proceeds to register routes even
when a unit reports config errors. -/
theorem load_middleware_gate_never_exits :
    load_middleware_errors [("auth_token", .validated ["accepted_token is required"])]
      = [("auth_token", ["accepted_token is required"])] ∧
    load_middleware [("auth_token", .validated ["accepted_token is required"])] = none ∧
    parse_config_middleware_gate
        [("auth_token", .validated ["accepted_token is required"])] = .proceeded ∧
    (∀ cfg, parse_config_middleware_gate cfg = .proceeded) :=
  ⟨rfl, rfl, rfl, fun _ => rfl⟩

/-- C4 counterexample: with path parameter id=1 and query parameter id=2, the
criteria mapping `{**path_params, **query_params}` holds the QUERY value, not
the path value, and a GET against a dataset whose only record has id 1
accordingly misses. -/
theorem merged_criteria_path_loses :
    alGet (dictMerge [("id", Value.str "1")] [("id", Value.str "2")]) "id"
        ≠ some (Value.str "1") ∧
    alGet (dictMerge [("id", Value.str "1")] [("id", Value.str "2")]) "id"
        = some (Value.str "2") ∧
    get_handler [[("id", Value.str "1")]] [("id", Value.str "1")]
        [("id", Value.str "2")] [] = errorResponse 404 "Item not found" := by
  refine ⟨by decide, by decide, by decide⟩

/-- C4 amended: on a key collision the criteria mapping used to filter the
dataset contains the QUERY parameter's value for that key (query params are
unpacked last in `{**path_params, **query_params}` and therefore take
precedence). -/
theorem merged_criteria_query_precedence (pp qp : Record) (k : String) (v : Value)
    (hwf : (qp.map Prod.fst).Nodup) (h : alGet qp k = some v) :
    alGet (dictMerge pp qp) k = some v :=
  alGet_dictMerge_right pp qp k v hwf h

theorem merged_criteria_query_precedence_witness :
    alGet (dictMerge [("id", Value.str "1")] [("id", Value.str "2")]) "id"
      = some (Value.str "2") :=
  merged_criteria_query_precedence [("id", Value.str "1")] [("id", Value.str "2")]
    "id" (Value.str "2") (by decide) (by decide)

/-! Helper lemmas about failure flags and the middleware chain. -/

theorem flagGet_alSet_self (st : FlagMap) (k : String) (b : Bool) :
    flagGet (alSet st k b) k = b := by
  rw [flagGet, alGet_alSet_self, Option.getD_some]

theorem flagGet_alSet_ne (st : FlagMap) (k k' : String) (b : Bool) (h : k' ≠ k) :
    flagGet (alSet st k b) k' = flagGet st k' := by
  rw [flagGet, alGet_alSet_ne _ _ _ _ h, flagGet]

theorem runMiddlewareChain_some (st : FlagMap) (chain : List MwStep) (r : Response)
    (h : (runMiddlewareChain st chain).1 = some r) :
    ∃ mw ∈ chain, mw.response = some r := by
  induction chain generalizing st with
  | nil => simp [runMiddlewareChain] at h
  | cons mw rest ih =>
    rw [runMiddlewareChain] at h
    cases hr : mw.response with
    | some r0 =>
      refine ⟨mw, List.mem_cons_self _ _, ?_⟩
      rw [hr]
      simp [run_middleware, hr] at h
      rw [h]
    | none =>
      simp only [run_middleware, hr] at h
      obtain ⟨mw', hmem, hresp⟩ := ih _ h
      exact ⟨mw', List.mem_cons_of_mem _ hmem, hresp⟩

theorem runMiddlewareChain_flag (st : FlagMap) (chain : List MwStep) (k : String)
    (h : ∀ mw ∈ chain, middlewareKey mw.name ≠ k) :
    flagGet (runMiddlewareChain st chain).2 k = flagGet st k := by
  induction chain generalizing st with
  | nil => rfl
  | cons mw rest ih =>
    have hst' : flagGet (run_middleware st mw).2 k = flagGet st k := by
      rw [run_middleware]
      by_cases hc : mw.shouldClear
      · simp only [hc, if_true]
        exact flagGet_alSet_ne _ _ _ _ (Ne.symm (h mw (List.mem_cons_self _ _)))
      · simp [hc]
    rw [runMiddlewareChain]
    cases hr : mw.response with
    | some r0 => simpa [run_middleware, hr] using hst'
    | none =>
      simp only [run_middleware, hr] at hst' ⊢
      rw [ih _ (fun mw' hm => h mw' (List.mem_cons_of_mem _ hm))]
      exact hst'

theorem routeKey_GET_ne_middlewareKey (endpoint name : String) :
    routeKey "GET" endpoint ≠ middlewareKey name := by
  intro heq
  have h2 := congrArg String.data heq
  simp only [routeKey, middlewareKey, String.data_append] at h2
  have h3 := congrArg List.head? h2
  simp only [List.cons_append, List.head?_cons] at h3
  exact absurd (Option.some.inj h3) (by decide)

theorem get_handler_ne_simulated (data : List Record) (pp qp meta : Record) (s : String) :
    get_handler data pp qp meta ≠ errorResponse 500 s := by
  intro h
  simp only [get_handler, errorResponse] at h
  split_ifs at h <;> simp_all [countMessage]

/-- C2: after setting the route failure flag of a GET route, the next request
to that route (with an existing dataset) is answered 500 "Simulated failure"
and the flag is consumed, so the immediately following identical request is
not answered with the simulated 500 (no middleware unit of the route returns
that exact response itself); the flag is never reset except by being
consumed — failure checks of other routes and middleware-flag clearing leave
it set. -/
theorem route_failure_flag_one_shot (st : FlagMap) (dataMap : DataMap)
    (data_set endpoint : String) (chain : List MwStep) (pp qp meta : Record)
    (hds : alHas dataMap data_set = true)
    (hmw : ∀ mw ∈ chain, mw.response ≠ some (errorResponse 500 "Simulated failure")) :
    get_request (set_route_failure st "GET" endpoint) dataMap data_set endpoint
        chain pp qp meta
      = (errorResponse 500 "Simulated failure",
         alSet (set_route_failure st "GET" endpoint) (routeKey "GET" endpoint) false) ∧
    flagGet (alSet (set_route_failure st "GET" endpoint) (routeKey "GET" endpoint) false)
        (routeKey "GET" endpoint) = false ∧
    (get_request (alSet (set_route_failure st "GET" endpoint)
          (routeKey "GET" endpoint) false) dataMap data_set endpoint chain pp qp meta).1
      ≠ errorResponse 500 "Simulated failure" ∧
    flagGet (set_route_failure st "GET" endpoint) (routeKey "GET" endpoint) = true ∧
    (∀ method ep, routeKey method ep ≠ routeKey "GET" endpoint →
      flagGet (check_route_failure_flag (set_route_failure st "GET" endpoint) method ep).2
          (routeKey "GET" endpoint) = true) ∧
    (∀ chain2 : List MwStep,
      flagGet (runMiddlewareChain (set_route_failure st "GET" endpoint) chain2).2
          (routeKey "GET" endpoint) = true) := by
  have hset : flagGet (set_route_failure st "GET" endpoint) (routeKey "GET" endpoint)
      = true := flagGet_alSet_self st (routeKey "GET" endpoint) true
  have hcleared : flagGet (alSet (set_route_failure st "GET" endpoint)
      (routeKey "GET" endpoint) false) (routeKey "GET" endpoint) = false :=
    flagGet_alSet_self _ (routeKey "GET" endpoint) false
  refine ⟨?_, hcleared, ?_, hset, ?_, ?_⟩
  · rw [get_request, route_preamble, hds]
    simp only [Bool.not_true, Bool.false_eq_true, if_false]
    rw [check_route_failure_flag]
    simp only [hset, if_true]
  · rw [get_request, route_preamble, hds]
    simp only [Bool.not_true, Bool.false_eq_true, if_false]
    rw [check_route_failure_flag]
    simp only [hcleared, Bool.false_eq_true, if_false]
    cases hrc : (runMiddlewareChain (alSet (set_route_failure st "GET" endpoint)
        (routeKey "GET" endpoint) false) chain).1 with
    | some r =>
      simp only [hrc]
      obtain ⟨mw, hmem, hresp⟩ := runMiddlewareChain_some _ _ _ hrc
      intro hcontra
      exact hmw mw hmem (hcontra ▸ hresp)
    | none =>
      simp only [hrc]
      exact get_handler_ne_simulated _ _ _ _ _
  · intro method ep hne
    rw [check_route_failure_flag]
    by_cases hf : flagGet (set_route_failure st "GET" endpoint) (routeKey method ep)
    · simp only [hf, if_true]
      rw [flagGet_alSet_ne _ _ _ _ (Ne.symm hne)]
      exact hset
    · simp only [hf, Bool.false_eq_true, if_false]
      exact hset
  · intro chain2
    rw [runMiddlewareChain_flag _ _ _
      (fun mw _ => Ne.symm (routeKey_GET_ne_middlewareKey endpoint mw.name))]
    exact hset

theorem route_failure_flag_one_shot_witness :
    get_request (set_route_failure [] "GET" "/users") [("users", [])] "users" "/users"
        [] [] [] []
      = (errorResponse 500 "Simulated failure",
         alSet (set_route_failure [] "GET" "/users") (routeKey "GET" "/users") false) ∧
    flagGet (alSet (set_route_failure [] "GET" "/users") (routeKey "GET" "/users") false)
        (routeKey "GET" "/users") = false ∧
    (get_request (alSet (set_route_failure [] "GET" "/users")
          (routeKey "GET" "/users") false) [("users", [])] "users" "/users" [] [] [] []).1
      ≠ errorResponse 500 "Simulated failure" ∧
    flagGet (set_route_failure [] "GET" "/users") (routeKey "GET" "/users") = true ∧
    (∀ method ep, routeKey method ep ≠ routeKey "GET" "/users" →
      flagGet (check_route_failure_flag (set_route_failure [] "GET" "/users") method ep).2
          (routeKey "GET" "/users") = true) ∧
    (∀ chain2 : List MwStep,
      flagGet (runMiddlewareChain (set_route_failure [] "GET" "/users") chain2).2
          (routeKey "GET" "/users") = true) :=
  route_failure_flag_one_shot [] [("users", [])] "users" "/users" [] [] [] []
    (by decide) (by simp)

/-- Does the character list start with the given pattern. -/
def startsWithChars : List Char → List Char → Bool
  | _, [] => true
  | [], _ :: _ => false
  | c :: cs, d :: ds => c == d && startsWithChars cs ds

/-- Does the character list contain the given pattern as a contiguous
substring. -/
def containsChars : List Char → List Char → Bool
  | [], sub => sub.isEmpty
  | _ :: _, [] => true
  | c :: cs, d :: ds => (c == d && startsWithChars cs ds) || containsChars cs (d :: ds)

/-- C5 counterexample: for a dataset whose template record has exactly the
fields id and name, a POST whose body is the empty object is answered 400,
but with the generic "Request body is required" message — which does not even
contain the substring "name" — because the emptiness check precedes field
validation. -/
theorem post_empty_body_not_listing_name :
    post_handler [[("id", Value.str "1"), ("name", Value.str "Ada")]]
        (some ([] : Record)) [] "u1" "t1"
      = (errorResponse 400 "Request body is required",
         [[("id", Value.str "1"), ("name", Value.str "Ada")]]) ∧
    containsChars "Request body is required".data "name".data = false := by
  exact ⟨rfl, by decide⟩

/-- C5 amended: for a POST route whose dataset's first record has exactly the
fields id and name, the empty object body receives 400 "Request body is
required" (the emptiness check comes first), while any non-empty body lacking
the key name receives 400 "Missing required fields: ['name']". -/
theorem post_template_missing_name (v w : Value) (rest : List Record)
    (body meta : Record) (new_id now : String)
    (hne : body ≠ []) (hname : alHas body "name" = false) :
    post_handler ([("id", v), ("name", w)] :: rest) (some body) meta new_id now
      = (errorResponse 400 "Missing required fields: ['name']",
         [("id", v), ("name", w)] :: rest) ∧
    post_handler ([("id", v), ("name", w)] :: rest) (some ([] : Record)) meta new_id now
      = (errorResponse 400 "Request body is required",
         [("id", v), ("name", w)] :: rest) := by
  constructor
  · have hmsg : "Missing required fields: " ++ pyStrList ["name"]
        = "Missing required fields: ['name']" := by decide
    simp [post_handler, List.isEmpty_iff, hne, recordKeys, hname, hmsg]
  · rfl

theorem post_template_missing_name_witness :
    post_handler [[("id", Value.str "1"), ("name", Value.str "Ada")]]
        (some [("x", Value.int 1)]) [] "u1" "t1"
      = (errorResponse 400 "Missing required fields: ['name']",
         [[("id", Value.str "1"), ("name", Value.str "Ada")]]) ∧
    post_handler [[("id", Value.str "1"), ("name", Value.str "Ada")]]
        (some ([] : Record)) [] "u1" "t1"
      = (errorResponse 400 "Request body is required",
         [[("id", Value.str "1"), ("name", Value.str "Ada")]]) :=
  post_template_missing_name (Value.str "1") (Value.str "Ada") [] [("x", Value.int 1)]
    [] "u1" "t1" (by decide) (by decide)

/-- C10: on an empty dataset the POST template field set is empty, so every
parseable non-empty JSON object body passes field validation whatever its
fields are; only id and the optional created_at/updated_at stamps are added
to the body before it is stored (creates_entry) or acknowledged. -/
theorem post_empty_dataset_semantics (body meta : Record) (new_id now : String)
    (hne : body ≠ []) :
    post_handler [] (some body) meta new_id now
      = (if truthyGet meta "creates_entry" then
           (⟨200, Content.obj (postStamped body meta new_id now)⟩,
            [postStamped body meta new_id now])
         else
           (⟨200, Content.obj [("message", Value.str "Successful post, no entries created")]⟩,
            [])) ∧
    alGet (postStamped body meta new_id now) "id" = some (Value.str new_id) ∧
    (∀ k, k ≠ "id" → k ≠ "created_at" → k ≠ "updated_at" →
      alGet (postStamped body meta new_id now) k = alGet body k) := by
  refine ⟨?_, ?_, ?_⟩
  · simp [post_handler, List.isEmpty_iff, hne, recordKeys]
  · rw [postStamped]
    by_cases h1 : truthyGet meta "creates_created_at" <;>
      by_cases h2 : truthyGet meta "creates_updated_at" <;>
        simp [h1, h2, alGet_alSet_self,
          alGet_alSet_ne _ _ "id" _ (by decide : ("id" : String) ≠ "updated_at"),
          alGet_alSet_ne _ _ "id" _ (by decide : ("id" : String) ≠ "created_at")]
  · intro k hk1 hk2 hk3
    rw [postStamped]
    by_cases h1 : truthyGet meta "creates_created_at" <;>
      by_cases h2 : truthyGet meta "creates_updated_at" <;>
        simp [h1, h2, alGet_alSet_ne _ _ k _ hk1, alGet_alSet_ne _ _ k _ hk2,
          alGet_alSet_ne _ _ k _ hk3]

theorem post_empty_dataset_semantics_witness :
    post_handler [] (some [("x", Value.int 1)]) [("creates_entry", Value.bool true)]
        "u1" "t1"
      = (if truthyGet [("creates_entry", Value.bool true)] "creates_entry" then
           (⟨200, Content.obj (postStamped [("x", Value.int 1)]
              [("creates_entry", Value.bool true)] "u1" "t1")⟩,
            [postStamped [("x", Value.int 1)] [("creates_entry", Value.bool true)] "u1" "t1"])
         else
           (⟨200, Content.obj [("message", Value.str "Successful post, no entries created")]⟩,
            [])) ∧
    alGet (postStamped [("x", Value.int 1)] [("creates_entry", Value.bool true)] "u1" "t1")
        "id" = some (Value.str "u1") ∧
    (∀ k, k ≠ "id" → k ≠ "created_at" → k ≠ "updated_at" →
      alGet (postStamped [("x", Value.int 1)] [("creates_entry", Value.bool true)] "u1" "t1") k
        = alGet [("x", Value.int 1)] k) :=
  post_empty_dataset_semantics [("x", Value.int 1)] [("creates_entry", Value.bool true)]
    "u1" "t1" (by decide)

/-! PUT semantics (C6). -/

theorem bool_params_false {α : Type} (pp qp : List α) (h : ¬(pp = [] ∧ qp = [])) :
    (pp.isEmpty && qp.isEmpty) = false := by
  cases pp with
  | nil =>
    cases qp with
    | nil => exact absurd ⟨rfl, rfl⟩ h
    | cons a l => rfl
  | cons a l => rfl

/-- C6 counterexample: a PUT request without path or query parameters whose
(empty) merged criteria loosely match exactly one record and whose body
supplies every non-id field of that record is rejected with 400 "PUT route
requires path or query parameters to locate entry" and the dataset is left
unchanged, instead of the claimed 200 update. -/
theorem put_no_params_rejected :
    filter_dict [[("id", Value.str "1"), ("name", Value.str "Ada")]]
        (dictMerge [] []) = [[("id", Value.str "1"), ("name", Value.str "Ada")]] ∧
    put_handler [[("id", Value.str "1"), ("name", Value.str "Ada")]] [] []
        (some [("name", Value.str "Bo")])
      = (errorResponse 400 "PUT route requires path or query parameters to locate entry",
         [[("id", Value.str "1"), ("name", Value.str "Ada")]]) ∧
    (errorResponse 400 "PUT route requires path or query parameters to locate entry").status
      ≠ 200 := by
  refine ⟨by decide, by decide, by decide⟩

/-- C6 amended: for every PUT request carrying at least one path or query
parameter and a non-empty body, if the merged parameters loosely match exactly
one record and the body supplies every non-id field of that record, the
handler stores the body as the record's new fields while keeping the record's
original id (a client-supplied id is discarded) and answers 200 with the
updated record; matching zero records gives 404; matching two or more gives
400 reporting the match count. -/
theorem put_semantics :
    (∀ (data : List Record) (pp qp body item : Record),
      ¬(pp = [] ∧ qp = []) → body ≠ [] →
      filter_dict data (dictMerge pp qp) = [item] →
      (∀ k ∈ recordKeys item, k ≠ "id" → alHas body k = true) →
      put_handler data pp qp (some body)
        = (⟨200, Content.obj (alSet body "id" ((alGet item "id").getD Value.null))⟩,
           data.map (fun r => if looseMatch r (dictMerge pp qp) then
             alSet body "id" ((alGet item "id").getD Value.null) else r)) ∧
      alGet (alSet body "id" ((alGet item "id").getD Value.null)) "id"
        = some ((alGet item "id").getD Value.null) ∧
      (∀ k, k ≠ "id" →
        alGet (alSet body "id" ((alGet item "id").getD Value.null)) k = alGet body k)) ∧
    (∀ (data : List Record) (pp qp body : Record),
      ¬(pp = [] ∧ qp = []) → body ≠ [] →
      filter_dict data (dictMerge pp qp) = [] →
      put_handler data pp qp (some body)
        = (errorResponse 404 "No matching entry found to update", data)) ∧
    (∀ (data : List Record) (pp qp body : Record),
      ¬(pp = [] ∧ qp = []) → body ≠ [] →
      2 ≤ (filter_dict data (dictMerge pp qp)).length →
      put_handler data pp qp (some body)
        = (errorResponse 400 (countMessage (filter_dict data (dictMerge pp qp)).length),
           data)) := by
  refine ⟨?_, ?_, ?_⟩
  · intro data pp qp body item h1 h2 hmatch hfields
    have hpq := bool_params_false pp qp h1
    have hmiss : (recordKeys item).filter (fun k => k != "id" && !alHas body k) = [] := by
      rw [List.filter_eq_nil_iff]
      intro k hk
      by_cases hid : k = "id"
      · simp [hid]
      · simp [hid, hfields k hk hid]
    refine ⟨?_, alGet_alSet_self _ _ _, fun k hk => alGet_alSet_ne _ _ _ _ hk⟩
    simp [put_handler, List.isEmpty_iff, h2, hpq, hmatch, hmiss]
  · intro data pp qp body h1 h2 hmatch
    have hpq := bool_params_false pp qp h1
    simp [put_handler, List.isEmpty_iff, h2, hpq, hmatch]
  · intro data pp qp body h1 h2 hlen
    have hpq := bool_params_false pp qp h1
    have hne : filter_dict data (dictMerge pp qp) ≠ [] := by
      intro he
      rw [he] at hlen
      simp at hlen
    have hlen1 : ((filter_dict data (dictMerge pp qp)).length != 1) = true := by
      simp only [bne_iff_ne, ne_eq]
      omega
    simp [put_handler, List.isEmpty_iff, h2, hpq, hne, hlen1]

theorem put_semantics_witness :
    put_handler [[("id", Value.str "1"), ("name", Value.str "Ada")]]
        [("id", Value.str "1")] [] (some [("name", Value.str "Bo")])
      = (⟨200, Content.obj [("name", Value.str "Bo"), ("id", Value.str "1")]⟩,
         [[("name", Value.str "Bo"), ("id", Value.str "1")]]) ∧
    put_handler [[("id", Value.str "1"), ("name", Value.str "Ada")]]
        [("id", Value.str "7")] [] (some [("name", Value.str "Bo")])
      = (errorResponse 404 "No matching entry found to update",
         [[("id", Value.str "1"), ("name", Value.str "Ada")]]) := by
  constructor
  · have h := put_semantics.1 [[("id", Value.str "1"), ("name", Value.str "Ada")]]
      [("id", Value.str "1")] [] [("name", Value.str "Bo")]
      [("id", Value.str "1"), ("name", Value.str "Ada")]
      (by simp) (by decide) (by decide) (by decide)
    exact h.1.trans (by decide)
  · exact put_semantics.2.1 [[("id", Value.str "1"), ("name", Value.str "Ada")]]
      [("id", Value.str "7")] [] [("name", Value.str "Bo")]
      (by simp) (by decide) (by decide)

/-! DELETE semantics (C7). -/

/-- C7 counterexample: with no path or query parameters both records of the
dataset loosely match (criteria empty), but the singular DELETE answers 500
"DELETE route requires path or query parameters to locate entry" instead of
the claimed 400 reporting the count (the dataset is indeed unchanged). -/
theorem delete_no_params_rejected :
    (filter_dict [[("id", Value.str "1")], [("id", Value.str "2")]]
        (dictMerge [] [])).length = 2 ∧
    delete_handler [[("id", Value.str "1")], [("id", Value.str "2")]] [] []
        [("singular_response", Value.bool true)]
      = .ok (errorResponse 500 "DELETE route requires path or query parameters to locate entry",
             [[("id", Value.str "1")], [("id", Value.str "2")]]) ∧
    (errorResponse 500 "DELETE route requires path or query parameters to locate entry").status
      ≠ 400 := by
  refine ⟨by decide, by rfl, by decide⟩

/-- C7 amended: for every DELETE request carrying at least one path or query
parameter on a route with singular_response true: two or more loosely matching
records give 400 reporting the count with the dataset unchanged; exactly one
matching record (in a dataset whose records all carry pairwise-distinct ids,
the maintained invariant) is removed from the dataset and returned directly as
the response body, not wrapped in a list. -/
theorem delete_singular_semantics :
    (∀ (data : List Record) (pp qp meta : Record),
      ¬(pp = [] ∧ qp = []) → truthyGet meta "singular_response" = true →
      2 ≤ (filter_dict data (dictMerge pp qp)).length →
      delete_handler data pp qp meta
        = .ok (errorResponse 400 (countMessage (filter_dict data (dictMerge pp qp)).length),
               data)) ∧
    (∀ (data : List Record) (pp qp meta : Record) (r : Record),
      ¬(pp = [] ∧ qp = []) → truthyGet meta "singular_response" = true →
      filter_dict data (dictMerge pp qp) = [r] →
      (∀ x ∈ data, (alGet x "id").isSome = true) →
      (dsIds data).Nodup →
      delete_handler data pp qp meta
        = .ok (⟨200, Content.obj r⟩, data.filter (fun x => x ≠ r))) := by
  constructor
  · intro data pp qp meta h1 hs hlen
    have hpq := bool_params_false pp qp h1
    have hne : filter_dict data (dictMerge pp qp) ≠ [] := by
      intro he
      rw [he] at hlen
      simp at hlen
    have hlen1 : ((filter_dict data (dictMerge pp qp)).length != 1) = true := by
      simp only [bne_iff_ne, ne_eq]
      omega
    simp [delete_handler, List.isEmpty_iff, hpq, hne, hs, hlen1]
  · intro data pp qp meta r h1 hs hmatch hid hnd
    have hpq := bool_params_false pp qp h1
    have hrdata : r ∈ data := by
      have hm : r ∈ filter_dict data (dictMerge pp qp) := by
        rw [hmatch]
        exact List.mem_singleton.mpr rfl
      exact (List.mem_filter.mp hm).1
    obtain ⟨v, hv⟩ := Option.isSome_iff_exists.mp (hid r hrdata)
    have hnd' : (data.map (fun x => (alGet x "id").getD Value.null)).Nodup := by
      rw [dsIds] at hnd
      exact hnd
    have hfilter :
        data.filter (fun item => !decide ((alGet item "id").getD Value.null = v))
          = data.filter (fun x => !decide (x = r)) := by
      apply List.filter_congr
      intro x hx
      by_cases hxr : x = r
      · subst hxr
        simp [hv]
      · have hne2 : (alGet x "id").getD Value.null ≠ v := by
          intro he
          apply hxr
          apply List.inj_on_of_nodup_map hnd' hx hrdata
          rw [he, hv]
          rfl
        simp [hne2, hxr]
    simp [delete_handler, List.isEmpty_iff, hpq, hmatch, hs, idsOf, hv]
    exact hfilter

theorem delete_singular_semantics_witness :
    delete_handler [[("id", Value.str "1")], [("id", Value.str "2")]]
        [("x", Value.str "y")] [] [("singular_response", Value.bool true)]
      = .ok (errorResponse 400 (countMessage 0), [[("id", Value.str "1")], [("id", Value.str "2")]]) ∨
    delete_handler [[("id", Value.str "1")], [("id", Value.str "2")]]
        [("id", Value.str "1")] [] [("singular_response", Value.bool true)]
      = .ok (⟨200, Content.obj [("id", Value.str "1")]⟩, [[("id", Value.str "2")]]) := by
  right
  have h := delete_singular_semantics.2 [[("id", Value.str "1")], [("id", Value.str "2")]]
    [("id", Value.str "1")] [] [("singular_response", Value.bool true)]
    [("id", Value.str "1")]
    (by simp) (by decide) (by decide) (by decide) (by decide)
  exact h.trans (by rfl)

/-! Seed validation (C8) and the id-uniqueness invariant (C9). -/

theorem validate_ok_iff_aux (ds : String) (items : List SeedItem) :
    ∀ (idx : Nat) (ids : List Value),
    (∃ recs, validateSeedItems ds idx ids items = .ok recs) ↔
      ((∀ it ∈ items, ∃ r, it = SeedItem.obj r ∧
          ((alGet r "id").getD Value.null).truthy = true) ∧
       (items.map seedIdOf).Nodup ∧
       (∀ v ∈ items.map seedIdOf, v ∉ ids)) := by
  induction items with
  | nil =>
    intro idx ids
    simp [validateSeedItems]
  | cons it rest ih =>
    intro idx ids
    cases it with
    | nonObject =>
      constructor
      · rintro ⟨recs, hrecs⟩
        simp [validateSeedItems] at hrecs
      · rintro ⟨hall, -, -⟩
        obtain ⟨r, hr, -⟩ := hall _ (List.mem_cons_self _ _)
        exact SeedItem.noConfusion hr
    | obj r =>
      by_cases ht : ((alGet r "id").getD Value.null).truthy
      · by_cases hc : ((alGet r "id").getD Value.null) ∈ ids
        · constructor
          · rintro ⟨recs, hrecs⟩
            simp [validateSeedItems, ht, hc] at hrecs
          · rintro ⟨-, -, hnin⟩
            exact absurd hc (hnin _ (by simp [seedIdOf]))
        · have hstep : validateSeedItems ds idx ids (SeedItem.obj r :: rest)
              = (validateSeedItems ds (idx + 1)
                  (ids ++ [(alGet r "id").getD Value.null]) rest).map
                  (fun recs => r :: recs) := by
            simp [validateSeedItems, ht, hc]
          constructor
          · rintro ⟨recs, hrecs⟩
            rw [hstep] at hrecs
            cases hrest : validateSeedItems ds (idx + 1)
                (ids ++ [(alGet r "id").getD Value.null]) rest with
            | error e =>
              rw [hrest] at hrecs
              simp [Except.map] at hrecs
            | ok recs' =>
              obtain ⟨hall, hnd, hnin⟩ := (ih (idx + 1) _).mp ⟨recs', hrest⟩
              refine ⟨?_, ?_, ?_⟩
              · intro it hit
                rcases List.mem_cons.mp hit with he | hm
                · exact ⟨r, he, ht⟩
                · exact hall it hm
              · rw [List.map_cons, List.nodup_cons]
                refine ⟨fun hmem => ?_, hnd⟩
                have h3 := hnin _ hmem
                simp [seedIdOf] at h3
              · intro v hv
                rw [List.map_cons, List.mem_cons] at hv
                rcases hv with he | hm
                · have he2 : v = (alGet r "id").getD Value.null := by
                    simpa [seedIdOf] using he
                  exact he2 ▸ hc
                · have h3 := hnin _ hm
                  intro hvin
                  exact h3 (List.mem_append_left _ hvin)
          · rintro ⟨hall, hnd, hnin⟩
            rw [List.map_cons, List.nodup_cons] at hnd
            have hrest : ∃ recs', validateSeedItems ds (idx + 1)
                (ids ++ [(alGet r "id").getD Value.null]) rest = .ok recs' := by
              apply (ih (idx + 1) _).mpr
              refine ⟨fun it hm => hall it (List.mem_cons_of_mem _ hm), hnd.2, ?_⟩
              intro v hv hvin
              rcases List.mem_append.mp hvin with hin | hin
              · exact hnin v (by rw [List.map_cons, List.mem_cons]; exact Or.inr hv) hin
              · rw [List.mem_singleton] at hin
                have : seedIdOf (SeedItem.obj r) ∈ rest.map seedIdOf := by
                  simpa [seedIdOf, hin] using hv
                exact hnd.1 this
            obtain ⟨recs', hrest'⟩ := hrest
            exact ⟨r :: recs', by rw [hstep, hrest']; rfl⟩
      · constructor
        · rintro ⟨recs, hrecs⟩
          simp [validateSeedItems, ht] at hrecs
        · rintro ⟨hall, -, -⟩
          obtain ⟨r', hr', htr'⟩ := hall _ (List.mem_cons_self _ _)
          have hrr : r' = r := by
            cases hr'
            rfl
          exact absurd (hrr ▸ htr') ht

theorem validate_ok_ids (ds : String) (items : List SeedItem) :
    ∀ (idx : Nat) (ids : List Value) (recs : List Record),
    validateSeedItems ds idx ids items = .ok recs →
    dsIds recs = items.map seedIdOf := by
  induction items with
  | nil =>
    intro idx ids recs h
    simp [validateSeedItems] at h
    rw [h]
    rfl
  | cons it rest ih =>
    intro idx ids recs h
    cases it with
    | nonObject => simp [validateSeedItems] at h
    | obj r =>
      by_cases ht : ((alGet r "id").getD Value.null).truthy
      · by_cases hc : ((alGet r "id").getD Value.null) ∈ ids
        · simp [validateSeedItems, ht, hc] at h
        · cases hrest : validateSeedItems ds (idx + 1)
              (ids ++ [(alGet r "id").getD Value.null]) rest with
          | error e => simp [validateSeedItems, ht, hc, hrest, Except.map] at h
          | ok recs' =>
            have hr : recs = r :: recs' := by
              have h2 := h
              simp [validateSeedItems, ht, hc, hrest, Except.map] at h2
              exact h2.symm
            subst hr
            have htail := ih (idx + 1) _ recs' hrest
            simp only [dsIds, List.map_cons, seedIdOf] at htail ⊢
            rw [htail]
      · simp [validateSeedItems, ht] at h

/-- C8 counterexample: a seed file that does not contain a list (or cannot be
read or parsed) is not a fatal startup error — the exception is caught inside
load_seed_data and the dataset is registered as the empty list. -/
theorem seed_not_list_not_fatal :
    ensure_dataset_loaded [] "users" .notAList = .ok [("users", [])] ∧
    ensure_dataset_loaded [] "users" .unreadable = .ok [("users", [])] :=
  ⟨rfl, rfl⟩

/-- C8 amended: a record that is not an object, a record lacking a truthy id,
or a duplicate id aborts the dataset's load with an error (and validation
succeeds exactly when every item is an object with a truthy id and the ids
are pairwise distinct); but a seed file that is missing, unparseable or not a
list is caught and replaced by an empty dataset, so the server starts and
serves requests against it. -/
theorem seed_validation_semantics :
    (∀ (ds : String) (seed : SeedFile), (∀ l, seed ≠ SeedFile.items l) →
      ensure_dataset_loaded [] ds seed = .ok [(ds, [])]) ∧
    (∀ (ds : String) (items : List SeedItem),
      (∃ recs, validateSeedItems ds 0 [] items = .ok recs) ↔
        ((∀ it ∈ items, ∃ r, it = SeedItem.obj r ∧
            ((alGet r "id").getD Value.null).truthy = true) ∧
         (items.map seedIdOf).Nodup)) ∧
    (∀ (ds : String) (items : List SeedItem) (e : String),
      validateSeedItems ds 0 [] items = .error e →
      ensure_dataset_loaded [] ds (SeedFile.items items) = .error e) := by
  refine ⟨?_, ?_, ?_⟩
  · intro ds seed hne
    cases seed with
    | unreadable => rfl
    | notAList => rfl
    | items l => exact absurd rfl (hne l)
  · intro ds items
    rw [validate_ok_iff_aux ds items 0 []]
    constructor
    · rintro ⟨h1, h2, -⟩
      exact ⟨h1, h2⟩
    · rintro ⟨h1, h2⟩
      exact ⟨h1, h2, by simp⟩
  · intro ds items e hv
    simp [ensure_dataset_loaded, alHas, load_seed_data, hv]

theorem seed_validation_semantics_witness :
    ensure_dataset_loaded [] "users" SeedFile.notAList = .ok [("users", [])] ∧
    (∃ recs, validateSeedItems "users" 0 [] [SeedItem.obj [("id", Value.str "1")]]
      = .ok recs) ∧
    ensure_dataset_loaded [] "users"
        (SeedFile.items [SeedItem.obj [("id", Value.str "1")],
                         SeedItem.obj [("id", Value.str "1")]])
      = .error "Duplicate id '1' found in dataset users" :=
  ⟨seed_validation_semantics.1 "users" SeedFile.notAList
      (fun l h => SeedFile.noConfusion h),
   (seed_validation_semantics.2.1 "users" [SeedItem.obj [("id", Value.str "1")]]).mpr
      ⟨fun it hit => ⟨[("id", Value.str "1")], List.mem_singleton.mp hit, by decide⟩,
       by decide⟩,
   seed_validation_semantics.2.2 "users"
      [SeedItem.obj [("id", Value.str "1")], SeedItem.obj [("id", Value.str "1")]]
      "Duplicate id '1' found in dataset users" (by rfl)⟩

theorem postStamped_id (body meta : Record) (new_id now : String) :
    alGet (postStamped body meta new_id now) "id" = some (Value.str new_id) := by
  rw [postStamped]
  by_cases h1 : truthyGet meta "creates_created_at" <;>
    by_cases h2 : truthyGet meta "creates_updated_at" <;>
      simp [h1, h2, alGet_alSet_self,
        alGet_alSet_ne _ _ "id" _ (by decide : ("id" : String) ≠ "updated_at"),
        alGet_alSet_ne _ _ "id" _ (by decide : ("id" : String) ≠ "created_at")]

theorem post_handler_nodup (d : List Record) (body? : Option Record) (meta : Record)
    (new_id now : String) (hnd : (dsIds d).Nodup)
    (hfresh : Value.str new_id ∉ dsIds d) :
    (dsIds (post_handler d body? meta new_id now).2).Nodup := by
  rcases body? with _ | body
  · exact hnd
  · have hcases : (post_handler d (some body) meta new_id now).2 = d ∨
        (post_handler d (some body) meta new_id now).2
          = d ++ [postStamped body meta new_id now] := by
      simp only [post_handler]
      split_ifs
      · left; rfl
      · left; rfl
      · right; rfl
      · left; rfl
    rcases hcases with he | he <;> rw [he]
    · exact hnd
    · rw [dsIds, List.map_append, List.nodup_append]
      refine ⟨hnd, List.nodup_singleton _, ?_⟩
      intro a ha hb
      have hab : a = Value.str new_id := by
        simpa [postStamped_id] using hb
      exact hfresh (hab ▸ ha)

theorem put_handler_ids (d : List Record) (pp qp : Record) (body? : Option Record) :
    dsIds (put_handler d pp qp body?).2 = dsIds d := by
  rcases body? with _ | body
  · rfl
  · simp only [put_handler]
    split_ifs with h1 h2 h3 h4 h5 <;> try rfl
    have hlen : (filter_dict d (dictMerge pp qp)).length = 1 := by
      simpa using h4
    obtain ⟨a, ha⟩ := List.length_eq_one.mp hlen
    simp only [dsIds, List.map_map]
    apply List.map_congr_left
    intro x hx
    simp only [Function.comp_apply]
    by_cases hm : looseMatch x (dictMerge pp qp)
    · have hxa : x = a := by
        have hmem : x ∈ filter_dict d (dictMerge pp qp) :=
          List.mem_filter.mpr ⟨hx, hm⟩
        rw [ha] at hmem
        exact List.mem_singleton.mp hmem
      subst hxa
      rw [ha]
      simp [hm, alGet_alSet_self]
    · simp [hm]

theorem delete_handler_data (d : List Record) (pp qp meta : Record) (resp : Response)
    (d' : List Record) (h : delete_handler d pp qp meta = .ok (resp, d')) :
    d' = d ∨ ∃ p : Record → Bool, d' = d.filter p := by
  simp only [delete_handler] at h
  split_ifs at h
  all_goals
    first
    | (left; exact (congrArg Prod.snd (Except.ok.inj h)).symm)
    | (cases hids : idsOf (filter_dict d (dictMerge pp qp)) with
       | none =>
         rw [hids] at h
         exact Except.noConfusion h
       | some ids =>
         rw [hids] at h
         right
         exact ⟨_, (congrArg Prod.snd (Except.ok.inj h)).symm⟩)

/-- C9: in every reachable state of a dataset — loaded from a validated seed,
then mutated by any sequence of POST (with a fresh generated uuid), PUT and
DELETE handler runs — no two records share an id. -/
theorem dataset_ids_unique (d : List Record) (h : ReachableData d) :
    (dsIds d).Nodup := by
  induction h with
  | loaded ds seed recs hv =>
    obtain ⟨-, hnd, -⟩ := (validate_ok_iff_aux ds (load_seed_data seed) 0 []).mp ⟨recs, hv⟩
    rw [validate_ok_ids ds (load_seed_data seed) 0 [] recs hv]
    exact hnd
  | postStep d body? meta new_id now hre hfresh ih =>
    exact post_handler_nodup d body? meta new_id now ih hfresh
  | putStep d pp qp body? hre ih =>
    rw [put_handler_ids]
    exact ih
  | deleteStep d pp qp meta resp d' hre hdel ih =>
    rcases delete_handler_data d pp qp meta resp d' hdel with he | ⟨p, he⟩
    · rw [he]
      exact ih
    · rw [he]
      simp only [dsIds] at ih ⊢
      exact List.Nodup.sublist (List.Sublist.map _ (List.filter_sublist d)) ih

theorem dataset_ids_unique_witness : (dsIds [[("id", Value.str "1")]]).Nodup :=
  dataset_ids_unique [[("id", Value.str "1")]]
    (ReachableData.loaded "users" (SeedFile.items [SeedItem.obj [("id", Value.str "1")]])
      [[("id", Value.str "1")]] (by rfl))

end MockApi
